import Mathlib

/-!
Verification of the Trial-by-Hex multi-model review orchestrator.

The repository contains three Python scripts:
* `src/trial_by_hex.py` — a 6-reviewer panel, modelled here in namespace `THX`;
* `src/trial_by_hex_plus.py` — a 12-reviewer panel with named specialist
  reviewers, modelled here in namespace `THXP`;
* `src/.py/trial_by_hex.py` — an earlier copy of `trial_by_hex.py`; every
  fragment relevant to the verified properties (the fallback loop in
  `get_review`, the `"\n\n---REVIEW---\n\n".join(reviews)` aggregation, the
  verdict expression `"PASS" in synthesis.upper()`, the dispatch loop and the
  report/return construction) is character-for-character the expression
  modelled in namespace `THX`, so `THX` covers both copies.

The HTTP boundary (`openrouter_request`) is the out-of-scope Agent Invoker:
it is modelled as an `Oracle` parameter mapping a model id and a message list
to either a response text (`Except.ok`) or a raised exception rendered as a
string cause (`Except.error`).  Python strings are modelled as Lean `String`;
the Python operations used by the scripts (`in`, `str.upper`, `str.join`,
slicing, `split('/')[-1]`) are given explicit structural implementations on
the underlying character lists so that all definitions evaluate by kernel
reduction.
-/

/-- Model of Python substring prefix test: `hay.startswith(pat)` on char lists. -/
def isPrefixCheck : List Char → List Char → Bool
  | [], _ => true
  | _ :: _, [] => false
  | p :: ps, h :: hs => p == h && isPrefixCheck ps hs

/-- Model of Python `pat in hay` on char lists: some suffix of `hay` starts with `pat`. -/
def containsSub (pat : List Char) : List Char → Bool
  | [] => isPrefixCheck pat []
  | c :: cs => isPrefixCheck pat (c :: cs) || containsSub pat cs

/-- Model of the Python membership test `pat in s` on strings. -/
def strContains (s pat : String) : Bool :=
  containsSub pat.data s.data

/-- Model of Python `s.upper()` (ASCII case mapping, as used by the scripts). -/
def pyUpper (s : String) : String :=
  ⟨s.data.map Char.toUpper⟩

/-- Case-insensitive containment, the spec's notion of a keyword scan. -/
def containsCI (s pat : String) : Bool :=
  strContains (pyUpper s) (pyUpper pat)

/-- Model of Python `sep.join(xs)`. -/
def pyJoin (sep : String) : List String → String
  | [] => ""
  | [x] => x
  | x :: y :: xs => x ++ sep ++ pyJoin sep (y :: xs)

/-- Model of the Python slice `s[:n]` (by code points). -/
def pySlice (s : String) (n : Nat) : String :=
  ⟨s.data.take n⟩

/-- Model of Python `len(s)` (in code points). -/
def pyLen (s : String) : Nat :=
  s.data.length

/-- Split a char list on a separator character, Python `str.split(c)` style. -/
def splitOnChar (c : Char) : List Char → List (List Char)
  | [] => [[]]
  | x :: xs =>
    let rest := splitOnChar c xs
    if x = c then [] :: rest
    else
      match rest with
      | [] => [[x]]
      | r :: rs => (x :: r) :: rs

/-- Model of Python `m.split(sep)[-1]` with `sep = "/"` (used for short model names). -/
def modelShort (m : String) : String :=
  ⟨(splitOnChar (Char.ofNat 47) m.data).getLastD []⟩

/-- One role-tagged chat message, as built by both scripts. -/
structure Msg where
  role : String
  content : String

/-- The Agent Invoker boundary: `openrouter_request` reduced to its observable
behaviour — given a model id and messages, either a response text or a raised
exception carrying a human-readable cause. -/
abbrev Oracle := String → List Msg → Except String String

/-- The fallback loop body shared by both scripts' `get_review`:
`for fallback in FALLBACK_MODELS: try: return openrouter_request(fallback, ...)
except: continue` — tries each fallback model in listed order, returning the
first successful text, `none` if every attempt raises. -/
def tryFallbacks (invoke : Oracle) (msgs : List Msg) : List String → Option String
  | [] => none
  | f :: rest =>
    match invoke f msgs with
    | Except.ok t => some t
    | Except.error _ => tryFallbacks invoke msgs rest

/-- The whole `try/except` shape of `get_review` in both scripts: attempt the
primary model; on exception walk the fallback list; if no fallback succeeds,
re-raise the primary's original exception (`raise e`). -/
def invokeWithFallback (invoke : Oracle) (msgs : List Msg)
    (primary : String) (fallbacks : List String) : Except String String :=
  match invoke primary msgs with
  | Except.ok t => Except.ok t
  | Except.error e =>
    match tryFallbacks invoke msgs fallbacks with
    | some t => Except.ok t
    | none => Except.error e

/-- The models the fallback loop actually invokes, in order: every listed
fallback up to and including the first one that succeeds. -/
def fallbackAttempts (invoke : Oracle) (msgs : List Msg) : List String → List String
  | [] => []
  | f :: rest =>
    match invoke f msgs with
    | Except.ok _ => [f]
    | Except.error _ => f :: fallbackAttempts invoke msgs rest

/-- Trace of the model ids `invokeWithFallback` invokes, in invocation order,
mirroring its control flow line by line: the primary alone if it succeeds,
otherwise the primary followed by the fallback attempts. -/
def attemptedModels (invoke : Oracle) (msgs : List Msg)
    (primary : String) (fallbacks : List String) : List String :=
  match invoke primary msgs with
  | Except.ok _ => [primary]
  | Except.error _ => primary :: fallbackAttempts invoke msgs fallbacks

namespace THX

/-- One entry of `REVIEWERS` in `trial_by_hex.py`: a model id and a persona. -/
structure Reviewer where
  model : String
  persona : String

/-- `REVIEWERS` from `src/trial_by_hex.py` lines 53-78. -/
def REVIEWERS : List Reviewer :=
  [⟨"anthropic/claude-sonnet-4.5",
    "technical specialist focused on methodology and rigor"⟩,
   ⟨"openai/gpt-5.1",
    "skeptical critic looking for weaknesses and logical gaps"⟩,
   ⟨"google/gemini-3-pro-preview",
    "constructive reviewer focused on practical improvement"⟩,
   ⟨"x-ai/grok-4.1-fast:free",
    "accessibility reviewer checking clarity for general audience"⟩,
   ⟨"deepseek/deepseek-chat-v3.1",
    "literature reviewer checking connections to existing work"⟩,
   ⟨"openai/gpt-5-mini",
    "experimental design and reproducibility reviewer"⟩]

/-- `FALLBACK_MODELS` from `src/trial_by_hex.py` lines 81-85. -/
def FALLBACK_MODELS : List String :=
  ["x-ai/grok-4.1-fast:free",
   "anthropic/claude-haiku-4.5",
   "openai/gpt-5-nano"]

/-- The system prompt template of `get_review` (lines 120-131). -/
def baseSystemPrompt (persona : String) : String :=
  "You are a " ++ persona ++ " conducting a blind peer review.\n\nEvaluate this work on:\n1. Technical accuracy\n2. Clarity of argument\n3. Evidence quality\n4. Novel contribution\n5. Weaknesses and gaps\n\nBe specific. Cite sections. Provide actionable feedback.\nDo NOT reference author credentials or affiliations - this is blind review.\nFocus purely on the quality of the work itself."

/-- The message list `get_review` sends (lines 117-137). -/
def reviewMessages (content persona : String) : List Msg :=
  [⟨"system", baseSystemPrompt persona⟩, ⟨"user", content⟩]

/-- `get_review` (lines 115-149): primary model first, then the shared
fallback list, re-raising the primary's exception if all attempts fail. -/
def get_review (invoke : Oracle) (content persona model : String) : Except String String :=
  invokeWithFallback invoke (reviewMessages content persona) model FALLBACK_MODELS

/-- The synthesis delimiter of line 154. -/
def SYNTH_DELIM : String := "\n\n---REVIEW---\n\n"

/-- Line 154: `combined = "\n\n---REVIEW---\n\n".join(reviews)`. -/
def combined (reviews : List String) : String :=
  pyJoin SYNTH_DELIM reviews

/-- The synthesis system prompt (lines 159-179). -/
def SYNTH_PROMPT : String :=
  "Synthesize these 6 blind reviews into a single actionable summary.\n\nOUTPUT FORMAT:\n## High Consensus (4+ reviewers agree)\n[Issues most reviewers flagged]\n\n## Moderate Consensus (2-3 reviewers)\n[Issues some reviewers noted]\n\n## Minority Concerns (1 reviewer, but substantive)\n[Individual concerns worth considering]\n\n## Strengths (what reviewers praised)\n[Positive feedback]\n\n## VERDICT\nPASS: Ready for publication with minor edits\nREVISE: Needs significant revision, re-review recommended\nREJECT: Fundamental issues need addressing\n\nRemove any credentialism-based dismissals. Focus on substance."

/-- The message list the synthesis call sends (lines 156-185). -/
def synthesisMessages (reviews : List String) : List Msg :=
  [⟨"system", SYNTH_PROMPT⟩, ⟨"user", combined reviews⟩]

/-- The default `synthesis_model` argument of `synthesize_reviews` (line 152). -/
def SYNTHESIS_MODEL : String := "anthropic/claude-opus-4.5"

/-- `synthesize_reviews` (lines 152-187): a single direct
`openrouter_request(synthesis_model, messages, ...)` — note that, unlike
`get_review`, it contains no try/except and no fallback loop. -/
def synthesize_reviews (invoke : Oracle) (reviews : List String)
    (synthesis_model : String) : Except String String :=
  invoke synthesis_model (synthesisMessages reviews)

/-- Line 240: `passed = "PASS" in synthesis.upper()`. -/
def verdictPassed (synthesis : String) : Bool :=
  strContains (pyUpper synthesis) "PASS"

/-- The verdict label written into the report (line 252). -/
def verdictLabel (passed : Bool) : String :=
  if passed then "✓ PASSED" else "⚠ NEEDS REVISION"

/-- The body of one iteration of the dispatch loop (lines 228-234): the
review text on success, the literal placeholder `f"Review failed: {e}"`
embedding the exception's cause on failure. -/
def reviewOutcome (invoke : Oracle) (content : String) (r : Reviewer) : String :=
  match get_review invoke content r.persona r.model with
  | Except.ok t => t
  | Except.error e => "Review failed: " ++ e

/-- The dispatch loop (lines 224-234): one outcome appended per panel entry,
in panel order; a failed reviewer contributes its placeholder and the loop
continues with the remaining reviewers.  The loop body never reads the panel
length, so it is modelled parametrically in the panel (the source fixes the
panel to the six-entry `REVIEWERS`). -/
def dispatch (invoke : Oracle) (content : String) (panel : List Reviewer) : List String :=
  panel.map (reviewOutcome invoke content)

/-- The dictionary `{"passed": passed, "synthesis": synthesis}` returned by
`trial_by_hex` (line 279 and the early returns at lines 207 and 213): it has
exactly these two keys. -/
structure RunResult where
  passed : Bool
  synthesis : String

/-- The report document written by `trial_by_hex` (lines 248-272), decomposed
into the fragments interpolated into the f-string. -/
structure Report where
  docName : String
  date : String
  verdictLine : String
  synthesis : String
  individual : String

/-- One entry of the individual-reviews section (lines 265-272). -/
def individualEntry (i : Nat) (r : Reviewer) (review : String) : String :=
  "### Reviewer " ++ toString (i + 1) ++ ": " ++ modelShort r.model ++
    "\n**Persona:** " ++ r.persona ++ "\n\n" ++ review ++ "\n\n---\n\n"

/-- The `"".join(...)` building the individual-reviews section
(lines 265-272); the generator enumerates `reviews` and indexes `REVIEWERS`
at the same position, which — the two lists having equal length — is the zip
taken here. -/
def individualSection (panel : List Reviewer) (reviews : List String) : String :=
  pyJoin "" (((panel.zip reviews).enum).map
    (fun p => individualEntry p.1 p.2.1 p.2.2))

/-- The full report text of lines 248-272 rendered from its fragments. -/
def renderReport (r : Report) : String :=
  "# Trial by Hex Review\n\n**Document:** " ++ r.docName ++ "\n**Date:** " ++
    r.date ++ "\n**Verdict:** " ++ r.verdictLine ++
    "\n**Reviewers:** 6 diverse AI models via OpenRouter\n\n---\n\n## Synthesized Review\n\n" ++
    r.synthesis ++ "\n\n---\n\n## Individual Reviews\n\n" ++ r.individual

/-- `trial_by_hex` (lines 190-279).  `apiKeySet` and `fileFound` are the two
guard conditions of lines 192 and 211; the early returns produce the result
dictionary without writing any report (`none`).  Past the guards, the run
dispatches the panel, calls `synthesize_reviews`; an exception raised there
propagates out of the function (`Except.error`) before any report is written.
Otherwise the verdict is derived, the report written and the dictionary
returned.  File-system and console I/O are out of scope. -/
def trial_by_hex (invoke : Oracle) (apiKeySet fileFound : Bool)
    (content docName date : String) (panel : List Reviewer) :
    Except String (Option Report × RunResult) :=
  match apiKeySet with
  | false => Except.ok (none, ⟨false, "API key not set"⟩)
  | true =>
    match fileFound with
    | false => Except.ok (none, ⟨false, "Input file not found"⟩)
    | true =>
      let reviews := dispatch invoke content panel
      match synthesize_reviews invoke reviews SYNTHESIS_MODEL with
      | Except.error e => Except.error e
      | Except.ok synthesis =>
        let passed := verdictPassed synthesis
        Except.ok
          (some ⟨docName, date, verdictLabel passed, synthesis,
                 individualSection panel reviews⟩,
           ⟨passed, synthesis⟩)

end THX

namespace THXP

/-- One reviewer dictionary in `trial_by_hex_plus.py`: the original six carry
only a model id and a persona; the six plus reviewers additionally carry a
display `name` key, modelled as an `Option`. -/
structure Reviewer where
  model : String
  name? : Option String
  persona : String

/-- `FALLBACK_MODELS` from `src/trial_by_hex_plus.py` lines 412-416 — the same
three entries as in `trial_by_hex.py`. -/
def FALLBACK_MODELS : List String :=
  ["x-ai/grok-4.1-fast:free",
   "anthropic/claude-haiku-4.5",
   "openai/gpt-5-nano"]

/-- The system prompt for an original reviewer (lines 458-469), identical in
text to the one in `trial_by_hex.py`. -/
def baseSystemPrompt (persona : String) : String :=
  "You are a " ++ persona ++ " conducting a blind peer review.\n\nEvaluate this work on:\n1. Technical accuracy\n2. Clarity of argument\n3. Evidence quality\n4. Novel contribution\n5. Weaknesses and gaps\n\nBe specific. Cite sections. Provide actionable feedback.\nDo NOT reference author credentials or affiliations - this is blind review.\nFocus purely on the quality of the work itself."

/-- The system prompt chosen by `get_review` (lines 448-469): the specialized
template when the reviewer dictionary has a `name` key, the original template
otherwise. -/
def systemPrompt (r : Reviewer) : String :=
  match r.name? with
  | some n =>
    "You are " ++ n ++ ", a " ++ r.persona ++
      "\n\nYou are conducting a blind peer review. Focus ONLY on your specialized domain.\nDo NOT reference author credentials or affiliations - this is blind review.\nBe specific. Cite sections. Provide actionable feedback."
  | none => baseSystemPrompt r.persona

/-- The message list `get_review` sends (lines 471-474). -/
def reviewMessages (r : Reviewer) (content : String) : List Msg :=
  [⟨"system", systemPrompt r⟩, ⟨"user", content⟩]

/-- `get_review` (lines 446-486): primary model first, then the shared
fallback list, re-raising the primary's exception if all attempts fail. -/
def get_review (invoke : Oracle) (content : String) (r : Reviewer) : Except String String :=
  invokeWithFallback invoke (reviewMessages r content) r.model FALLBACK_MODELS

/-- The display label of one review in the aggregate (line 494):
`reviewer.get('name', f"Reviewer {i+1}")`. -/
def formatLabel (i : Nat) (r : Reviewer) : String :=
  r.name?.getD ("Reviewer " ++ toString (i + 1))

/-- Lines 492-495: each review formatted as `f"### {name}\n{review}"`, in
order, over `enumerate(zip(reviews, reviewer_info))`. -/
def formatted_reviews (reviews : List String) (reviewer_info : List Reviewer) :
    List String :=
  ((reviews.zip reviewer_info).enum).map
    (fun p => "### " ++ formatLabel p.1 p.2.2 ++ "\n" ++ p.2.1)

/-- Line 497: `combined = "\n\n---REVIEW---\n\n".join(formatted_reviews)`. -/
def combined (reviews : List String) (reviewer_info : List Reviewer) : String :=
  pyJoin "\n\n---REVIEW---\n\n" (formatted_reviews reviews reviewer_info)

/-- The synthesis system prompt (lines 502-561). -/
def SYNTH_PROMPT : String :=
  "Synthesize these 12 specialized blind reviews into a comprehensive actionable summary.\n\nThe reviewers include:\n- 6 traditional academic reviewers (methodology, skeptic, constructive, accessibility, literature, reproducibility)\n- 6 specialized philosophical/systems reviewers:\n  - Logical Consistency Reviewer (Godelian analysis)\n  - Semantic Analyst (Wittgensteinian language debugging)\n  - Ethical Alignment Sentinel (bias and impact)\n  - Systems Architect (feasibility and implementation)\n  - Interdisciplinary Catalyst (cross-domain connections)\n  - Steel Man Advocate (charitable strongest interpretation)\n\nOUTPUT FORMAT:\n\n## CRITICAL ISSUES (Consensus across multiple reviewers)\n[Issues flagged by 4+ reviewers - these are blockers]\n\n## SIGNIFICANT CONCERNS (2-3 reviewers)\n[Important issues worth addressing]\n\n## CONSIDERATIONS (Single reviewer, but substantive)\n[Individual concerns that deserve thought]\n\n## STRENGTHS (What reviewers praised)\n[Positive consensus]\n\n## LOGICAL/FORMAL ISSUES\n[From the Logical Consistency Reviewer - Godelian concerns, self-reference issues]\n\n## LINGUISTIC CLARITY\n[From the Semantic Analyst - language bewitchments, definition problems]\n\n## ETHICAL CONSIDERATIONS\n[From the Ethical Alignment Sentinel - bias, impact, safety]\n\n## IMPLEMENTATION FEASIBILITY\n[From the Systems Architect - can it be built?]\n\n## INTERDISCIPLINARY CONNECTIONS\n[From the Interdisciplinary Catalyst - missed connections, synthesis opportunities]\n\n## STEEL MANNED VERSION\n[From the Steel Man Advocate - the strongest form of the argument]\n\n## VERDICT\n\n**Technical Quality:** [1-5 stars]\n**Logical Coherence:** [1-5 stars]\n**Ethical Alignment:** [1-5 stars]\n**Feasibility:** [1-5 stars]\n**Novelty:** [1-5 stars]\n\n**Overall:** PASS | REVISE | REJECT\n\n**Priority Actions:**\n1. [Most important fix]\n2. [Second priority]\n3. [Third priority]\n\nRemove any credentialism-based dismissals. Focus on substance."

/-- The message list the synthesis call sends (lines 499-567). -/
def synthesisMessages (reviews : List String) (reviewer_info : List Reviewer) :
    List Msg :=
  [⟨"system", SYNTH_PROMPT⟩, ⟨"user", combined reviews reviewer_info⟩]

/-- The default `synthesis_model` argument of `synthesize_reviews` (line 489). -/
def SYNTHESIS_MODEL : String := "anthropic/claude-opus-4.5"

/-- `synthesize_reviews` (lines 489-569): a single direct
`openrouter_request(synthesis_model, messages, ...)` — as in
`trial_by_hex.py`, it contains no try/except and no fallback loop. -/
def synthesize_reviews (invoke : Oracle) (reviews : List String)
    (reviewer_info : List Reviewer) (synthesis_model : String) :
    Except String String :=
  invoke synthesis_model (synthesisMessages reviews reviewer_info)

/-- Line 630:
`passed = "PASS" in synthesis.upper() and "REJECT" not in synthesis.upper()`. -/
def verdictPassed (synthesis : String) : Bool :=
  strContains (pyUpper synthesis) "PASS" && !strContains (pyUpper synthesis) "REJECT"

/-- The verdict label written into the report (line 657). -/
def verdictLabel (passed : Bool) : String :=
  if passed then "PASSED" else "NEEDS REVISION"

/-- The body of one iteration of the dispatch loop (lines 618-624): the
review text on success, the literal placeholder `f"Review failed: {e}"`
embedding the exception's cause on failure. -/
def reviewOutcome (invoke : Oracle) (content : String) (r : Reviewer) : String :=
  match get_review invoke content r with
  | Except.ok t => t
  | Except.error e => "Review failed: " ++ e

/-- The dispatch loop (lines 613-624): one outcome appended per panel entry,
in panel order; a failed reviewer contributes its placeholder and the loop
continues.  Modelled parametrically in the panel (the source fixes the panel
to the twelve-entry `REVIEWERS = ORIGINAL_REVIEWERS + PLUS_REVIEWERS`; no
verified property depends on the panel constants). -/
def dispatch (invoke : Oracle) (content : String) (panel : List Reviewer) : List String :=
  panel.map (reviewOutcome invoke content)

/-- The dictionary `{"passed": passed, "synthesis": synthesis}` returned by
`trial_by_hex_plus` (line 678 and the early returns at lines 589 and 595). -/
structure RunResult where
  passed : Bool
  synthesis : String

/-- The report document written by `trial_by_hex_plus` (lines 653-671),
decomposed into the fragments interpolated into the f-string. -/
structure Report where
  docName : String
  date : String
  verdictLine : String
  synthesis : String
  individual : String

/-- One entry of the individual-reviews section (lines 640-651), including
the Python slices `persona[:200]` and `persona[:100]` and the conditional
ellipsis. -/
def individualEntry (i : Nat) (r : Reviewer) (review : String) : String :=
  let name := r.name?.getD ("Reviewer " ++ toString (i + 1))
  let persona := pySlice r.persona 200
  "### " ++ toString (i + 1) ++ ". " ++ name ++ "\n**Model:** " ++ r.model ++
    "\n**Focus:** " ++ pySlice persona 100 ++
    (if 100 < pyLen persona then "..." else "") ++ "\n\n" ++ review ++
    "\n\n---\n\n"

/-- The accumulation building `individual_reviews` (lines 639-651) over
`enumerate(zip(reviews, REVIEWERS))`. -/
def individualSection (reviews : List String) (panel : List Reviewer) : String :=
  pyJoin "" (((reviews.zip panel).enum).map
    (fun p => individualEntry p.1 p.2.2 p.2.1))

/-- The full report text of lines 653-671 rendered from its fragments. -/
def renderReport (r : Report) : String :=
  "# Trial by Hex+ Review\n\n**Document:** " ++ r.docName ++ "\n**Date:** " ++
    r.date ++ "\n**Verdict:** " ++ r.verdictLine ++
    "\n**Reviewers:** 12 specialized AI reviewers via OpenRouter\n\n---\n\n## Synthesized Review\n\n" ++
    r.synthesis ++ "\n\n---\n\n## Individual Reviews\n\n" ++ r.individual ++ "\n"

/-- `trial_by_hex_plus` (lines 572-678), under the same modelling conventions
as `THX.trial_by_hex`: guard checks for the credential and the input file
(early dictionary returns, no report), then dispatch, then the synthesis call
whose exception propagates out before any report is written, then verdict
derivation, report construction and the returned dictionary. -/
def trial_by_hex_plus (invoke : Oracle) (apiKeySet fileFound : Bool)
    (content docName date : String) (panel : List Reviewer) :
    Except String (Option Report × RunResult) :=
  match apiKeySet with
  | false => Except.ok (none, ⟨false, "API key not set"⟩)
  | true =>
    match fileFound with
    | false => Except.ok (none, ⟨false, "Input file not found"⟩)
    | true =>
      let reviews := dispatch invoke content panel
      match synthesize_reviews invoke reviews panel SYNTHESIS_MODEL with
      | Except.error e => Except.error e
      | Except.ok synthesis =>
        let passed := verdictPassed synthesis
        Except.ok
          (some ⟨docName, date, verdictLabel passed, synthesis,
                 individualSection reviews panel⟩,
           ⟨passed, synthesis⟩)

end THXP

/-- An invoker whose every call succeeds with the text "PASS". -/
def allPassOracle : Oracle := fun _ _ => Except.ok "PASS"

/-- An invoker whose every call raises with cause "boom". -/
def allFailOracle : Oracle := fun _ _ => Except.error "boom"

/-- An invoker for which exactly the designated synthesis model fails while
every other model (in particular every fallback model) succeeds. -/
def synthDownOracle : Oracle := fun m _ =>
  if m = "anthropic/claude-opus-4.5" then Except.error "synthesis model down"
  else Except.ok "fallback rescued it"

/-- Whether a `trial_by_hex` run result carries a written report. -/
def producedReport : Except String (Option THX.Report × THX.RunResult) → Bool
  | Except.ok (some _, _) => true
  | _ => false

/-- Whether a `trial_by_hex_plus` run result carries a written report. -/
def producedReportPlus : Except String (Option THXP.Report × THXP.RunResult) → Bool
  | Except.ok (some _, _) => true
  | _ => false

/-- Mapping a list commutes with positional default lookup inside bounds. -/
theorem list_getD_map {α β : Type} (f : α → β) (d : α) (d2 : β) :
    ∀ (l : List α) (i : Nat), i < l.length →
      (l.map f).getD i d2 = f (l.getD i d) := by
  intro l
  induction l with
  | nil => intro i h; exact absurd h (Nat.not_lt_zero i)
  | cons x xs ih =>
    intro i h
    cases i with
    | zero => rfl
    | succ n =>
      have hn : n < xs.length := Nat.lt_of_succ_lt_succ h
      simpa [List.getD] using ih n hn

/-- If every fallback model raises, the fallback loop returns nothing. -/
theorem tryFallbacks_eq_none (invoke : Oracle) (msgs : List Msg) :
    ∀ fs : List String, (∀ f ∈ fs, ∃ e2, invoke f msgs = Except.error e2) →
      tryFallbacks invoke msgs fs = none := by
  intro fs
  induction fs with
  | nil => intro _; rfl
  | cons f rest ih =>
    intro h
    obtain ⟨e2, he2⟩ := h f (List.mem_cons_self f rest)
    have hrest := ih (fun g hg => h g (List.mem_cons_of_mem f hg))
    simp [tryFallbacks, he2, hrest]

/-- If every fallback model raises, the fallback loop attempts the whole list
in its listed order. -/
theorem fallbackAttempts_all_fail (invoke : Oracle) (msgs : List Msg) :
    ∀ fs : List String, (∀ f ∈ fs, ∃ e2, invoke f msgs = Except.error e2) →
      fallbackAttempts invoke msgs fs = fs := by
  intro fs
  induction fs with
  | nil => intro _; rfl
  | cons f rest ih =>
    intro h
    obtain ⟨e2, he2⟩ := h f (List.mem_cons_self f rest)
    have hrest := ih (fun g hg => h g (List.mem_cons_of_mem f hg))
    simp [fallbackAttempts, he2, hrest]

/-- When the primary raises and every fallback raises, the fallback-wrapped
invocation re-raises the primary's original exception. -/
theorem invokeWithFallback_all_fail (invoke : Oracle) (msgs : List Msg)
    (primary : String) (fallbacks : List String) (e : String)
    (hp : invoke primary msgs = Except.error e)
    (hf : ∀ f ∈ fallbacks, ∃ e2, invoke f msgs = Except.error e2) :
    invokeWithFallback invoke msgs primary fallbacks = Except.error e := by
  have hnone := tryFallbacks_eq_none invoke msgs fallbacks hf
  simp [invokeWithFallback, hp, hnone]

/-- C1 counterexample: the claimed keyword contract fails on `trial_by_hex.py`
(and on the identical expression in `src/.py/trial_by_hex.py`): a synthesis
text that contains "reject" case-insensitively is nevertheless classed as
passed, because line 240 tests only `"PASS" in synthesis.upper()` with no
reject exclusion. -/
theorem C1_keyword_contract_counterexample :
    THX.verdictPassed "Overall REJECT, though it did pass clarity" = true ∧
    containsCI "Overall REJECT, though it did pass clarity" "reject" = true := by
  exact ⟨by decide, by decide⟩

/-- C1 (amended): only `trial_by_hex_plus.py` implements the full keyword
contract — passed iff the text contains "pass" case-insensitively and does not
contain "reject" case-insensitively.  In `trial_by_hex.py` (both copies) the
run is classed as passed iff the text contains "pass" case-insensitively,
with no reject exclusion, so a text containing both keywords is classed
passed. -/
theorem C1_keyword_contract_amended (s : String) :
    (THXP.verdictPassed s = true ↔
      (containsCI s "pass" = true ∧ containsCI s "reject" = false)) ∧
    (THX.verdictPassed s = true ↔ containsCI s "pass" = true) := by
  have h1 : containsCI s "pass" = strContains (pyUpper s) "PASS" := rfl
  have h2 : containsCI s "reject" = strContains (pyUpper s) "REJECT" := rfl
  constructor
  · rw [h1, h2]
    cases ha : strContains (pyUpper s) "PASS" <;>
      cases hb : strContains (pyUpper s) "REJECT" <;>
        simp [THXP.verdictPassed, ha, hb]
  · rw [h1]
    exact Iff.rfl

/-- C1 witness: the amended contract evaluated on concrete texts — a text with
both keywords is rejected by the plus variant but passed by the basic one. -/
theorem C1_keyword_contract_amended_witness :
    (THXP.verdictPassed "PASS yet REJECT" = true ↔
      (containsCI "PASS yet REJECT" "pass" = true ∧
       containsCI "PASS yet REJECT" "reject" = false)) ∧
    (THX.verdictPassed "PASS yet REJECT" = true ↔
      containsCI "PASS yet REJECT" "pass" = true) :=
  C1_keyword_contract_amended "PASS yet REJECT"

/-- C2 counterexample: `synthesize_reviews` in both scripts performs a single
direct invocation with no try/except — with an invoker for which the
designated synthesis model fails while the first shared fallback model would
succeed on the very same request, the synthesis step is declared failed
without any fallback attempt, in both variants. -/
theorem C2_synthesis_fallback_counterexample :
    THX.synthesize_reviews synthDownOracle ["some review"] THX.SYNTHESIS_MODEL =
        Except.error "synthesis model down" ∧
    synthDownOracle (THX.FALLBACK_MODELS.getD 0 "")
        (THX.synthesisMessages ["some review"]) =
      Except.ok "fallback rescued it" ∧
    THXP.synthesize_reviews synthDownOracle ["some review"] [⟨"m", none, "p"⟩]
        THXP.SYNTHESIS_MODEL = Except.error "synthesis model down" ∧
    synthDownOracle (THXP.FALLBACK_MODELS.getD 0 "")
        (THXP.synthesisMessages ["some review"] [⟨"m", none, "p"⟩]) =
      Except.ok "fallback rescued it" := by
  exact ⟨rfl, rfl, rfl, rfl⟩

/-- C2 (amended): the synthesis request is sent directly to the designated
synthesis model with no fallback policy: the synthesis result depends only on
that single model's invocation (the behaviour of every other model, including
the shared fallback list, is never consulted), and a failure of that
invocation is the synthesis step's failure. -/
theorem C2_synthesis_no_fallback_amended :
    (∀ (invoke invoke2 : Oracle) (reviews : List String) (m : String),
       invoke m (THX.synthesisMessages reviews) =
           invoke2 m (THX.synthesisMessages reviews) →
       THX.synthesize_reviews invoke reviews m =
         THX.synthesize_reviews invoke2 reviews m) ∧
    (∀ (invoke : Oracle) (reviews : List String) (m e : String),
       invoke m (THX.synthesisMessages reviews) = Except.error e →
       THX.synthesize_reviews invoke reviews m = Except.error e) ∧
    (∀ (invoke invoke2 : Oracle) (reviews : List String)
       (info : List THXP.Reviewer) (m : String),
       invoke m (THXP.synthesisMessages reviews info) =
           invoke2 m (THXP.synthesisMessages reviews info) →
       THXP.synthesize_reviews invoke reviews info m =
         THXP.synthesize_reviews invoke2 reviews info m) ∧
    (∀ (invoke : Oracle) (reviews : List String)
       (info : List THXP.Reviewer) (m e : String),
       invoke m (THXP.synthesisMessages reviews info) = Except.error e →
       THXP.synthesize_reviews invoke reviews info m = Except.error e) := by
  exact ⟨fun _ _ _ _ h => h, fun _ _ _ _ h => h,
         fun _ _ _ _ _ h => h, fun _ _ _ _ _ h => h⟩

/-- C2 witness: the amended statement applied to the concrete invoker above. -/
theorem C2_synthesis_no_fallback_amended_witness :
    THX.synthesize_reviews synthDownOracle ["r"] THX.SYNTHESIS_MODEL =
        Except.error "synthesis model down" ∧
    THXP.synthesize_reviews synthDownOracle ["r"] [] THXP.SYNTHESIS_MODEL =
      Except.error "synthesis model down" :=
  ⟨C2_synthesis_no_fallback_amended.2.1 synthDownOracle ["r"]
     THX.SYNTHESIS_MODEL "synthesis model down" rfl,
   C2_synthesis_no_fallback_amended.2.2.2 synthDownOracle ["r"] []
     THXP.SYNTHESIS_MODEL "synthesis model down" rfl⟩

/-- C3 counterexample: the aggregation of `trial_by_hex.py` line 154 is not
injective — a single review whose text contains the delimiter serializes to
exactly the same aggregate as two separate reviews, so the (identity, text)
sequence is ambiguous after concatenation (and the basic variant includes no
reviewer identity at all in the aggregate). -/
theorem C3_lossless_serialization_counterexample :
    THX.combined ["a\n\n---REVIEW---\n\nb"] = THX.combined ["a", "b"] ∧
    (["a\n\n---REVIEW---\n\nb"] : List String) ≠ ["a", "b"] := by
  exact ⟨rfl, by decide⟩

/-- C3 (amended): the serialization is lossy in both variants.  The basic
variant concatenates bare review texts (no identities), and even the plus
variant's labelled scheme collides: a review text containing the delimiter
followed by a forged label is indistinguishable from two genuine labelled
reviews. -/
theorem C3_serialization_collisions_amended :
    (THX.combined ["a\n\n---REVIEW---\n\nb"] = THX.combined ["a", "b"]) ∧
    (THXP.combined ["x\n\n---REVIEW---\n\n### B\ny"] [⟨"m1", some "A", "p1"⟩] =
      THXP.combined ["x", "y"]
        [⟨"m1", some "A", "p1"⟩, ⟨"m2", some "B", "p2"⟩]) ∧
    (["x\n\n---REVIEW---\n\n### B\ny"] : List String) ≠ ["x", "y"] := by
  refine ⟨rfl, rfl, by decide⟩

/-- C4 (confirmed): for every panel and every invoker behaviour, the dispatch
loop of both scripts returns exactly one outcome per panel entry, in panel
order; the outcome at position `i` is reviewer `i`'s result, and a reviewer
whose primary and fallback invocations all fail contributes the literal
placeholder embedding the failure cause at its original position — failures
never shorten the outcome list nor abort the remaining reviewers. -/
theorem C4_dispatch_length_order :
    (∀ (invoke : Oracle) (content : String) (panel : List THX.Reviewer),
       (THX.dispatch invoke content panel).length = panel.length) ∧
    (∀ (invoke : Oracle) (content : String) (panel : List THX.Reviewer) (i : Nat),
       i < panel.length →
       (THX.dispatch invoke content panel).getD i "" =
         THX.reviewOutcome invoke content (panel.getD i ⟨"", ""⟩)) ∧
    (∀ (invoke : Oracle) (content : String) (panel : List THX.Reviewer)
       (i : Nat) (e : String), i < panel.length →
       THX.get_review invoke content (panel.getD i ⟨"", ""⟩).persona
           (panel.getD i ⟨"", ""⟩).model = Except.error e →
       (THX.dispatch invoke content panel).getD i "" = "Review failed: " ++ e) ∧
    (∀ (invoke : Oracle) (content : String) (panel : List THXP.Reviewer),
       (THXP.dispatch invoke content panel).length = panel.length) ∧
    (∀ (invoke : Oracle) (content : String) (panel : List THXP.Reviewer) (i : Nat),
       i < panel.length →
       (THXP.dispatch invoke content panel).getD i "" =
         THXP.reviewOutcome invoke content (panel.getD i ⟨"", none, ""⟩)) ∧
    (∀ (invoke : Oracle) (content : String) (panel : List THXP.Reviewer)
       (i : Nat) (e : String), i < panel.length →
       THXP.get_review invoke content (panel.getD i ⟨"", none, ""⟩) =
           Except.error e →
       (THXP.dispatch invoke content panel).getD i "" = "Review failed: " ++ e) := by
  refine ⟨?_, ?_, ?_, ?_, ?_, ?_⟩
  · intro invoke content panel
    exact List.length_map panel (THX.reviewOutcome invoke content)
  · intro invoke content panel i h
    exact list_getD_map (THX.reviewOutcome invoke content) ⟨"", ""⟩ "" panel i h
  · intro invoke content panel i e h hfail
    have h2 : (THX.dispatch invoke content panel).getD i "" =
        THX.reviewOutcome invoke content (panel.getD i ⟨"", ""⟩) :=
      list_getD_map (THX.reviewOutcome invoke content) ⟨"", ""⟩ "" panel i h
    rw [h2, THX.reviewOutcome, hfail]
  · intro invoke content panel
    exact List.length_map panel (THXP.reviewOutcome invoke content)
  · intro invoke content panel i h
    exact list_getD_map (THXP.reviewOutcome invoke content) ⟨"", none, ""⟩ "" panel i h
  · intro invoke content panel i e h hfail
    have h2 : (THXP.dispatch invoke content panel).getD i "" =
        THXP.reviewOutcome invoke content (panel.getD i ⟨"", none, ""⟩) :=
      list_getD_map (THXP.reviewOutcome invoke content) ⟨"", none, ""⟩ "" panel i h
    rw [h2, THXP.reviewOutcome, hfail]

/-- C4 witness: a two-reviewer panel under an invoker that fails every call
still yields two outcomes, each the placeholder embedding the cause. -/
theorem C4_dispatch_length_order_witness :
    (THX.dispatch allFailOracle "doc" [⟨"m1", "p1"⟩, ⟨"m2", "p2"⟩]).length = 2 ∧
    (THX.dispatch allFailOracle "doc" [⟨"m1", "p1"⟩, ⟨"m2", "p2"⟩]).getD 1 "" =
      "Review failed: boom" ∧
    (THXP.dispatch allFailOracle "doc" [⟨"m1", none, "p1"⟩]).getD 0 "" =
      "Review failed: boom" :=
  ⟨C4_dispatch_length_order.1 allFailOracle "doc" [⟨"m1", "p1"⟩, ⟨"m2", "p2"⟩],
   C4_dispatch_length_order.2.2.1 allFailOracle "doc"
     [⟨"m1", "p1"⟩, ⟨"m2", "p2"⟩] 1 "boom" (by decide) rfl,
   C4_dispatch_length_order.2.2.2.2.2 allFailOracle "doc"
     [⟨"m1", none, "p1"⟩] 0 "boom" (by decide) rfl⟩

/-- C5 (confirmed): in both scripts, when the primary model's invocation
raises and every model of the shared fallback list also raises, `get_review`
re-raises the primary's original exception, not any fallback's. -/
theorem C5_primary_failure_preserved :
    (∀ (invoke : Oracle) (content persona model e : String),
       invoke model (THX.reviewMessages content persona) = Except.error e →
       (∀ f ∈ THX.FALLBACK_MODELS, ∃ e2,
          invoke f (THX.reviewMessages content persona) = Except.error e2) →
       THX.get_review invoke content persona model = Except.error e) ∧
    (∀ (invoke : Oracle) (content : String) (r : THXP.Reviewer) (e : String),
       invoke r.model (THXP.reviewMessages r content) = Except.error e →
       (∀ f ∈ THXP.FALLBACK_MODELS, ∃ e2,
          invoke f (THXP.reviewMessages r content) = Except.error e2) →
       THXP.get_review invoke content r = Except.error e) := by
  constructor
  · intro invoke content persona model e hp hf
    exact invokeWithFallback_all_fail invoke (THX.reviewMessages content persona)
      model THX.FALLBACK_MODELS e hp hf
  · intro invoke content r e hp hf
    exact invokeWithFallback_all_fail invoke (THXP.reviewMessages r content)
      r.model THXP.FALLBACK_MODELS e hp hf

/-- C5 witness: under an invoker failing every call with cause "boom", both
variants of `get_review` surface exactly that primary cause. -/
theorem C5_primary_failure_preserved_witness :
    THX.get_review allFailOracle "doc" "p" "m" = Except.error "boom" ∧
    THXP.get_review allFailOracle "doc" ⟨"m", none, "p"⟩ = Except.error "boom" :=
  ⟨C5_primary_failure_preserved.1 allFailOracle "doc" "p" "m" "boom" rfl
     (fun _ _ => ⟨"boom", rfl⟩),
   C5_primary_failure_preserved.2 allFailOracle "doc" ⟨"m", none, "p"⟩ "boom" rfl
     (fun _ _ => ⟨"boom", rfl⟩)⟩

/-- C6 (confirmed): in both scripts, when the synthesis invocation fails, the
exception propagates as the run's terminal result before any report is
written — the run yields `Except.error`, which carries no report and no
return dictionary, never a silently empty or partial report. -/
theorem C6_synthesis_failure_terminal :
    (∀ (invoke : Oracle) (content docName date e : String)
       (panel : List THX.Reviewer),
       THX.synthesize_reviews invoke (THX.dispatch invoke content panel)
           THX.SYNTHESIS_MODEL = Except.error e →
       THX.trial_by_hex invoke true true content docName date panel =
         Except.error e) ∧
    (∀ (invoke : Oracle) (content docName date e : String)
       (panel : List THXP.Reviewer),
       THXP.synthesize_reviews invoke (THXP.dispatch invoke content panel)
           panel THXP.SYNTHESIS_MODEL = Except.error e →
       THXP.trial_by_hex_plus invoke true true content docName date panel =
         Except.error e) := by
  constructor
  · intro invoke content docName date e panel h
    simp only [THX.trial_by_hex]
    rw [h]
  · intro invoke content docName date e panel h
    simp only [THXP.trial_by_hex_plus]
    rw [h]

/-- C6 witness: under an invoker failing every call, both runs terminate with
the synthesis failure cause and no report. -/
theorem C6_synthesis_failure_terminal_witness :
    THX.trial_by_hex allFailOracle true true "doc" "doc.md" "2026-01-01" [] =
        Except.error "boom" ∧
    THXP.trial_by_hex_plus allFailOracle true true "doc" "doc.md" "2026-01-01" [] =
      Except.error "boom" :=
  ⟨C6_synthesis_failure_terminal.1 allFailOracle "doc" "doc.md" "2026-01-01"
     "boom" [] rfl,
   C6_synthesis_failure_terminal.2 allFailOracle "doc" "doc.md" "2026-01-01"
     "boom" [] rfl⟩

/-- C7 counterexample: neither script checks for an empty panel — with the
credential present, the input readable and a succeeding synthesis model, a
run over the empty panel does not fail with any configuration error: it
proceeds to synthesis and produces a written report in both variants,
contradicting the claimed ConfigurationFailure short-circuit. -/
theorem C7_empty_panel_counterexample :
    producedReport
        (THX.trial_by_hex allPassOracle true true "doc" "doc.md" "2026-01-01" []) =
      true ∧
    producedReportPlus
        (THXP.trial_by_hex_plus allPassOracle true true "doc" "doc.md"
          "2026-01-01" []) = true := by
  exact ⟨rfl, rfl⟩

/-- C7 (amended): there is no empty-panel check.  The only guards evaluated
before dispatch are the credential and input-file checks; with those passing,
a run over the empty panel dispatches zero reviewers, sends the synthesis
request over an empty aggregate and — when the synthesis model succeeds —
produces a full report and result dictionary exactly as for a non-empty
panel. -/
theorem C7_empty_panel_amended :
    (∀ (invoke : Oracle) (content docName date s : String),
       invoke THX.SYNTHESIS_MODEL (THX.synthesisMessages []) = Except.ok s →
       THX.trial_by_hex invoke true true content docName date [] =
         Except.ok
           (some ⟨docName, date, THX.verdictLabel (THX.verdictPassed s), s, ""⟩,
            ⟨THX.verdictPassed s, s⟩)) ∧
    (∀ (invoke : Oracle) (content docName date s : String),
       invoke THXP.SYNTHESIS_MODEL (THXP.synthesisMessages [] []) = Except.ok s →
       THXP.trial_by_hex_plus invoke true true content docName date [] =
         Except.ok
           (some ⟨docName, date, THXP.verdictLabel (THXP.verdictPassed s), s, ""⟩,
            ⟨THXP.verdictPassed s, s⟩)) := by
  constructor
  · intro invoke content docName date s h
    simp only [THX.trial_by_hex]
    rw [show THX.synthesize_reviews invoke (THX.dispatch invoke content [])
          THX.SYNTHESIS_MODEL = Except.ok s from h]
    rfl
  · intro invoke content docName date s h
    simp only [THXP.trial_by_hex_plus]
    rw [show THXP.synthesize_reviews invoke (THXP.dispatch invoke content [])
          [] THXP.SYNTHESIS_MODEL = Except.ok s from h]
    rfl

/-- C7 witness: the amended statement applied to a concrete succeeding
invoker. -/
theorem C7_empty_panel_amended_witness :
    THX.trial_by_hex allPassOracle true true "doc" "doc.md" "2026-01-01" [] =
        Except.ok
          (some ⟨"doc.md", "2026-01-01", THX.verdictLabel (THX.verdictPassed "PASS"),
                 "PASS", ""⟩,
           ⟨THX.verdictPassed "PASS", "PASS"⟩) ∧
    THXP.trial_by_hex_plus allPassOracle true true "doc" "doc.md" "2026-01-01" [] =
      Except.ok
        (some ⟨"doc.md", "2026-01-01", THXP.verdictLabel (THXP.verdictPassed "PASS"),
               "PASS", ""⟩,
         ⟨THXP.verdictPassed "PASS", "PASS"⟩) :=
  ⟨C7_empty_panel_amended.1 allPassOracle "doc" "doc.md" "2026-01-01" "PASS" rfl,
   C7_empty_panel_amended.2 allPassOracle "doc" "doc.md" "2026-01-01" "PASS" rfl⟩

/-- C8 (confirmed): in both scripts, when the primary model's invocation
succeeds, `get_review` returns exactly the primary's response text and the
invocation trace contains the primary model alone — no fallback model is
invoked. -/
theorem C8_primary_success_no_fallback :
    (∀ (invoke : Oracle) (content persona model t : String),
       invoke model (THX.reviewMessages content persona) = Except.ok t →
       THX.get_review invoke content persona model = Except.ok t ∧
       attemptedModels invoke (THX.reviewMessages content persona) model
           THX.FALLBACK_MODELS = [model]) ∧
    (∀ (invoke : Oracle) (content : String) (r : THXP.Reviewer) (t : String),
       invoke r.model (THXP.reviewMessages r content) = Except.ok t →
       THXP.get_review invoke content r = Except.ok t ∧
       attemptedModels invoke (THXP.reviewMessages r content) r.model
           THXP.FALLBACK_MODELS = [r.model]) := by
  constructor
  · intro invoke content persona model t h
    constructor
    · simp [THX.get_review, invokeWithFallback, h]
    · simp [attemptedModels, h]
  · intro invoke content r t h
    constructor
    · simp [THXP.get_review, invokeWithFallback, h]
    · simp [attemptedModels, h]

/-- C8 witness: under an invoker succeeding everywhere, both variants return
the primary text and attempt only the primary model. -/
theorem C8_primary_success_no_fallback_witness :
    (THX.get_review allPassOracle "doc" "p" "m" = Except.ok "PASS" ∧
     attemptedModels allPassOracle (THX.reviewMessages "doc" "p") "m"
         THX.FALLBACK_MODELS = ["m"]) ∧
    (THXP.get_review allPassOracle "doc" ⟨"m", none, "p"⟩ = Except.ok "PASS" ∧
     attemptedModels allPassOracle (THXP.reviewMessages ⟨"m", none, "p"⟩ "doc")
         "m" THXP.FALLBACK_MODELS = ["m"]) :=
  ⟨C8_primary_success_no_fallback.1 allPassOracle "doc" "p" "m" "PASS" rfl,
   C8_primary_success_no_fallback.2 allPassOracle "doc" ⟨"m", none, "p"⟩
     "PASS" rfl⟩

/-- C9 (confirmed): in each variant, for every run in which the synthesis
call returns — i.e. the run produces `Except.ok` with a written report — the
returned dictionary (modelled by `RunResult`, which has exactly the fields
`passed` and `synthesis`) agrees with the report: the report's verdict line
reads the passed label exactly when the returned `passed` is true, and the
synthesis text embedded in the report equals the returned `synthesis`. -/
theorem C9_report_return_agree :
    (∀ (invoke : Oracle) (akey ffound : Bool) (content docName date : String)
       (panel : List THX.Reviewer) (rep : THX.Report) (res : THX.RunResult),
       THX.trial_by_hex invoke akey ffound content docName date panel =
         Except.ok (some rep, res) →
       (rep.verdictLine = "✓ PASSED" ↔ res.passed = true) ∧
       rep.synthesis = res.synthesis) ∧
    (∀ (invoke : Oracle) (akey ffound : Bool) (content docName date : String)
       (panel : List THXP.Reviewer) (rep : THXP.Report) (res : THXP.RunResult),
       THXP.trial_by_hex_plus invoke akey ffound content docName date panel =
         Except.ok (some rep, res) →
       (rep.verdictLine = "PASSED" ↔ res.passed = true) ∧
       rep.synthesis = res.synthesis) := by
  constructor
  · intro invoke akey ffound content docName date panel rep res h
    cases akey with
    | false => simp [THX.trial_by_hex] at h
    | true =>
      cases ffound with
      | false => simp [THX.trial_by_hex] at h
      | true =>
        rw [THX.trial_by_hex] at h
        cases hs : THX.synthesize_reviews invoke (THX.dispatch invoke content panel)
            THX.SYNTHESIS_MODEL with
        | error e => rw [hs] at h; exact absurd h (by simp)
        | ok s =>
          rw [hs] at h
          simp only [Except.ok.injEq, Prod.mk.injEq, Option.some.injEq] at h
          obtain ⟨hrep, hres⟩ := h
          subst hrep; subst hres
          cases hp : THX.verdictPassed s with
          | true => simp [THX.verdictLabel, hp]
          | false => simp [THX.verdictLabel, hp]
  · intro invoke akey ffound content docName date panel rep res h
    cases akey with
    | false => simp [THXP.trial_by_hex_plus] at h
    | true =>
      cases ffound with
      | false => simp [THXP.trial_by_hex_plus] at h
      | true =>
        rw [THXP.trial_by_hex_plus] at h
        cases hs : THXP.synthesize_reviews invoke
            (THXP.dispatch invoke content panel) panel THXP.SYNTHESIS_MODEL with
        | error e => rw [hs] at h; exact absurd h (by simp)
        | ok s =>
          rw [hs] at h
          simp only [Except.ok.injEq, Prod.mk.injEq, Option.some.injEq] at h
          obtain ⟨hrep, hres⟩ := h
          subst hrep; subst hres
          cases hp : THXP.verdictPassed s with
          | true => simp [THXP.verdictLabel, hp]
          | false => simp [THXP.verdictLabel, hp]

/-- C9 witness: the agreement applied to a concrete completed run of each
variant. -/
theorem C9_report_return_agree_witness :
    (((⟨"doc.md", "2026-01-01", "✓ PASSED", "PASS", ""⟩ : THX.Report).verdictLine =
        "✓ PASSED" ↔
      (⟨true, "PASS"⟩ : THX.RunResult).passed = true) ∧
     (⟨"doc.md", "2026-01-01", "✓ PASSED", "PASS", ""⟩ : THX.Report).synthesis =
       (⟨true, "PASS"⟩ : THX.RunResult).synthesis) ∧
    (((⟨"doc.md", "2026-01-01", "PASSED", "PASS", ""⟩ : THXP.Report).verdictLine =
        "PASSED" ↔
      (⟨true, "PASS"⟩ : THXP.RunResult).passed = true) ∧
     (⟨"doc.md", "2026-01-01", "PASSED", "PASS", ""⟩ : THXP.Report).synthesis =
       (⟨true, "PASS"⟩ : THXP.RunResult).synthesis) :=
  ⟨C9_report_return_agree.1 allPassOracle true true "doc" "doc.md" "2026-01-01"
     [] ⟨"doc.md", "2026-01-01", "✓ PASSED", "PASS", ""⟩ ⟨true, "PASS"⟩ rfl,
   C9_report_return_agree.2 allPassOracle true true "doc" "doc.md" "2026-01-01"
     [] ⟨"doc.md", "2026-01-01", "PASSED", "PASS", ""⟩ ⟨true, "PASS"⟩ rfl⟩

/-- C10 (confirmed): in `trial_by_hex.py`, after a primary failure the
fallback loop walks the full shared fallback list in its listed order with no
deduplication against the failed primary — when every fallback also fails,
the trace of invoked models is exactly the primary followed by the whole
list; and since the first fallback entry is "x-ai/grok-4.1-fast:free", which
is also the primary model of `REVIEWERS[3]`, a primary failure of that
reviewer is immediately retried against the very same model id (the second
attempted model equals the first fallback entry for every invoker). -/
theorem C10_full_fallback_no_dedup :
    ((THX.REVIEWERS.getD 3 ⟨"", ""⟩).model = "x-ai/grok-4.1-fast:free" ∧
     THX.FALLBACK_MODELS.getD 0 "" = "x-ai/grok-4.1-fast:free") ∧
    (∀ (invoke : Oracle) (content persona model e : String),
       invoke model (THX.reviewMessages content persona) = Except.error e →
       (∀ f ∈ THX.FALLBACK_MODELS, ∃ e2,
          invoke f (THX.reviewMessages content persona) = Except.error e2) →
       attemptedModels invoke (THX.reviewMessages content persona) model
           THX.FALLBACK_MODELS = model :: THX.FALLBACK_MODELS) ∧
    (∀ (invoke : Oracle) (content persona model e : String),
       invoke model (THX.reviewMessages content persona) = Except.error e →
       (attemptedModels invoke (THX.reviewMessages content persona) model
           THX.FALLBACK_MODELS).getD 1 "" = "x-ai/grok-4.1-fast:free") := by
  refine ⟨⟨rfl, rfl⟩, ?_, ?_⟩
  · intro invoke content persona model e hp hf
    have hfa := fallbackAttempts_all_fail invoke
      (THX.reviewMessages content persona) THX.FALLBACK_MODELS hf
    simp [attemptedModels, hp, hfa]
  · intro invoke content persona model e hp
    simp only [attemptedModels, hp]
    cases hg : invoke "x-ai/grok-4.1-fast:free"
        (THX.reviewMessages content persona) with
    | ok t => simp [THX.FALLBACK_MODELS, fallbackAttempts, hg]
    | error e2 => simp [THX.FALLBACK_MODELS, fallbackAttempts, hg]

/-- C10 witness: under an invoker failing every call, the failed grok-primary
reviewer's trace is the primary followed by the full fallback list — the same
model id attempted twice in a row, then the remaining fallbacks in listed
order. -/
theorem C10_full_fallback_no_dedup_witness :
    attemptedModels allFailOracle
        (THX.reviewMessages "doc"
          "accessibility reviewer checking clarity for general audience")
        "x-ai/grok-4.1-fast:free" THX.FALLBACK_MODELS =
      ["x-ai/grok-4.1-fast:free", "x-ai/grok-4.1-fast:free",
       "anthropic/claude-haiku-4.5", "openai/gpt-5-nano"] :=
  C10_full_fallback_no_dedup.2.1 allFailOracle "doc"
    "accessibility reviewer checking clarity for general audience"
    "x-ai/grok-4.1-fast:free" "boom" rfl (fun _ _ => ⟨"boom", rfl⟩)
